import Mathlib

/-!
Shallow embedding of the Australia-EPA data-collection scripts
(`aussie_parameter_search.py` and `site_list_script.py`).

Machine time is modelled by rationals (the scripts use float seconds from a
monotonic clock); HTTP responses are modelled by their status code, the
`Retry-After` header, and an already-decoded JSON body; exceptions raised by
`raise_for_status` are modelled by `Except`; the observable effects of a fetch
(rate-limiter acquisition, HTTP GET, backoff sleep) are recorded in a trace.
-/

namespace EPA

/-! ## JSON payload shapes (for the `/sites/{id}/parameters` route) -/

/-- One element of a `readings` array (`until_` models the `until` key). -/
structure Reading where
  since : Option String
  until_ : Option String
  averageValue : Option ℚ
  healthAdvice : Option String
  healthAdviceColor : Option String
  healthCode : Option ℚ
deriving DecidableEq

/-- One element of a `timeSeriesReadings` array. -/
structure TimeSeries where
  timeSeriesName : Option String
  readings : Option (List Reading)
deriving DecidableEq

/-- One element of a `parameters` array. -/
structure Param where
  name : Option String
  unit : Option String
  timeSeriesReadings : Option (List TimeSeries)
deriving DecidableEq

/-- The JSON object a parameters fetch deals in: the `siteID` key, the
`parameters` key, and the `_error` key (`err` models the `_error` key;
`none` means the key is absent). -/
structure ParamPayload where
  siteID : Option String
  parameters : Option (List Param)
  err : Option String
deriving DecidableEq

/-- Python's `x or []` idiom on an optional list (`None` and `[]` are both
falsy and give `[]`). -/
def pyOrList {α : Type} : Option (List α) → List α
  | none => []
  | some l => l

/-! ## AsyncRateLimiter (lines 23-43)

`acquire` reads the event-loop clock up to three times: `t1` on entry, `t2`
after the (possible) backoff sleep in the window-full branch, and `t3` just
before appending.  The clock values are supplied by the environment; which
values a real execution can supply is captured by `stepOk` below. -/

/-- The prune loop: `while self._win and (now - self._win[0]) > 1.0:
self._win.popleft()` (lines 33-34 and 41-42). -/
def pruneWin (now : ℚ) (win : List ℚ) : List ℚ :=
  win.dropWhile (fun e => decide (now - e > 1))

/-- `sleep_for = 1.0 - (now - self._win[0])` (line 36), read on the
already-pruned window.  The `none` branch is unreachable for `max_per_sec ≥ 1`. -/
def sleepFor (now : ℚ) (win : List ℚ) : ℚ :=
  match (pruneWin now win).head? with
  | some h => 1 - (now - h)
  | none => 0

/-- The clock readings one `acquire` call observes. -/
structure AcqTimes where
  t1 : ℚ
  t2 : ℚ
  t3 : ℚ
deriving DecidableEq

/-- State transition of `AsyncRateLimiter.acquire` (lines 29-43) on the
sliding window, for max-per-second `K`: prune at `t1`; if the window is
full, (sleep and) re-prune at `t2`; append the fresh clock reading `t3`. -/
def acquire (K : ℕ) (ts : AcqTimes) (win : List ℚ) : List ℚ :=
  let w1 := pruneWin ts.t1 win
  if K ≤ w1.length then
    pruneWin ts.t2 w1 ++ [ts.t3]
  else
    w1 ++ [ts.t3]

/-- A sequence of `acquire` calls, oldest first. -/
def acquireSeq (K : ℕ) : List AcqTimes → List ℚ → List ℚ
  | [], win => win
  | ts :: rest, win => acquireSeq K rest (acquire K ts win)

/-- Clock readings a real execution of `acquire` can observe: the clock is
monotone (all recorded stamps are ≤ `t1`, and `t1 ≤ t2 ≤ t3`), and in the
window-full branch the wake-up time `t2` is at least `t1` plus the requested
sleep `max (sleepFor t1 win) 0` (no sleep is issued when `sleep_for ≤ 0`). -/
def stepOk (K : ℕ) (ts : AcqTimes) (win : List ℚ) : Prop :=
  (∀ e ∈ win, e ≤ ts.t1) ∧ ts.t1 ≤ ts.t2 ∧ ts.t2 ≤ ts.t3 ∧
    (K ≤ (pruneWin ts.t1 win).length →
      ts.t1 + max (sleepFor ts.t1 win) 0 ≤ ts.t2)

instance (K : ℕ) (ts : AcqTimes) (win : List ℚ) : Decidable (stepOk K ts win) := by
  unfold stepOk; infer_instance

/-- A whole run of `acquire` calls each of whose clock readings a real
execution can produce. -/
def validRun (K : ℕ) : List AcqTimes → List ℚ → Prop
  | [], _ => True
  | ts :: rest, win => stepOk K ts win ∧ validRun K rest (acquire K ts win)

instance validRunDec (K : ℕ) : (steps : List AcqTimes) → (win : List ℚ) →
    Decidable (validRun K steps win)
  | [], _ => by unfold validRun; infer_instance
  | ts :: rest, win => by
      unfold validRun
      have := validRunDec K rest (acquire K ts win)
      infer_instance

/-- Clock readings with a strict overshoot on wake-up: the time observed
after the backoff sleep is strictly later than `t1 + sleep_for` (real clocks
deliver this; the boundary `t2 = t1 + sleep_for` exactly is excluded). -/
def stepOkStrict (K : ℕ) (ts : AcqTimes) (win : List ℚ) : Prop :=
  (∀ e ∈ win, e ≤ ts.t1) ∧ ts.t1 ≤ ts.t2 ∧ ts.t2 ≤ ts.t3 ∧
    (K ≤ (pruneWin ts.t1 win).length →
      ts.t1 + sleepFor ts.t1 win < ts.t2)

instance (K : ℕ) (ts : AcqTimes) (win : List ℚ) : Decidable (stepOkStrict K ts win) := by
  unfold stepOkStrict; infer_instance

/-- A run all of whose steps have the strict wake-up overshoot. -/
def strictRun (K : ℕ) : List AcqTimes → List ℚ → Prop
  | [], _ => True
  | ts :: rest, win => stepOkStrict K ts win ∧ strictRun K rest (acquire K ts win)

instance strictRunDec (K : ℕ) : (steps : List AcqTimes) → (win : List ℚ) →
    Decidable (strictRun K steps win)
  | [], _ => by unfold strictRun; infer_instance
  | ts :: rest, win => by
      unfold strictRun
      have := strictRunDec K rest (acquire K ts win)
      infer_instance

/-- The time of the last prune performed inside one `acquire` call. -/
def lastPrune (K : ℕ) (ts : AcqTimes) (win : List ℚ) : ℚ :=
  if K ≤ (pruneWin ts.t1 win).length then ts.t2 else ts.t1

/-! ## fetch_site_parameters (lines 84-111) -/

/-- An HTTP response as `fetch_site_parameters` observes it: status code,
`Retry-After` header (`none` = absent, `some none` = present but not
parseable as a float, `some (some q)` = present with value `q`), and the
decoded JSON body. -/
structure HResponse where
  status : ℕ
  retryAfter : Option (Option ℚ)
  body : ParamPayload
deriving DecidableEq

/-- Observable effects of one fetch: a rate-limiter acquisition, an HTTP GET
(tagged with its attempt index), or a backoff sleep of a given duration. -/
inductive FetchAction : Type
  | acquire : FetchAction
  | get : ℕ → FetchAction
  | sleep : ℚ → FetchAction
deriving DecidableEq

/-- Backoff delay chosen on a 429 (lines 95-99): the `Retry-After` value when
present and parseable as a float, else `min(2 ** attempt, 8)`. -/
def backoffDelay (attempt : ℕ) (ra : Option (Option ℚ)) : ℚ :=
  match ra with
  | some (some q) => q
  | _ => min ((2 : ℚ) ^ attempt) 8

/-- The retry loop of `fetch_site_parameters` (lines 91-111), by remaining
attempts (`fuel`); `attempt` is the current loop index.  Per attempt:
acquire the limiter, GET; on 429 sleep the backoff delay and continue;
on 404 return `{"siteID": sid, "parameters": []}`; on a 2xx return the body
with `siteID` attached; any other status makes `raise_for_status` raise
(modelled by `Except.error` carrying the status).  When the four attempts
are consumed, return the `"_error": "exhausted retries"` payload. -/
def fetchAttempts (sid : String) (resp : ℕ → HResponse) :
    ℕ → ℕ → List FetchAction × Except ℕ ParamPayload
  | _, 0 => ([], .ok ⟨some sid, some [], some "exhausted retries"⟩)
  | attempt, fuel + 1 =>
    let r := resp attempt
    if r.status = 429 then
      let rest := fetchAttempts sid resp (attempt + 1) fuel
      (.acquire :: .get attempt :: .sleep (backoffDelay attempt r.retryAfter) :: rest.1,
        rest.2)
    else if r.status = 404 then
      ([.acquire, .get attempt], .ok ⟨some sid, some [], none⟩)
    else if 200 ≤ r.status ∧ r.status ≤ 299 then
      ([.acquire, .get attempt], .ok { r.body with siteID := some sid })
    else
      ([.acquire, .get attempt], .error r.status)

/-- `fetch_site_parameters` (lines 84-111): the retry loop started at attempt
0 with the fixed budget of 4 attempts.  Returns the trace of observable
effects together with the outcome. -/
def fetch_site_parameters (sid : String) (resp : ℕ → HResponse) :
    List FetchAction × Except ℕ ParamPayload :=
  fetchAttempts sid resp 0 4

/-- Number of HTTP GETs (attempts actually issued) in a fetch trace. -/
def countGets (tr : List FetchAction) : ℕ :=
  (tr.filter (fun a => match a with | .get _ => true | _ => false)).length

/-- Whether a fetch trace contains a backoff sleep. -/
def hasSleep (tr : List FetchAction) : Bool :=
  tr.any (fun a => match a with | .sleep _ => true | _ => false)

/-! ## fetch_all_parameters (lines 114-125)

Workers run `fetch_site_parameters` once per site id; `asyncio.gather`
returns their results in task-creation order, or propagates an exception if
a worker raised one.  The transport is a function from site id and attempt
index to the response. -/

/-- `fetch_all_parameters` (lines 114-125): one `fetch_site_parameters` call
per site id, results collected in task order; an exception raised by a
worker propagates out of `gather`. -/
def fetch_all_parameters (siteIds : List String) (resp : String → ℕ → HResponse) :
    Except ℕ (List ParamPayload) :=
  match siteIds with
  | [] => .ok []
  | sid :: rest =>
    match (fetch_site_parameters sid (resp sid)).2 with
    | .error e => .error e
    | .ok p =>
      match fetch_all_parameters rest resp with
      | .error e => .error e
      | .ok ps => .ok (p :: ps)

/-! ## parameters_to_df (lines 130-157) -/

/-- One flattened row as first built (lines 140-151), timestamps still raw. -/
structure Row where
  siteID : Option String
  parameter : Option String
  unit : Option String
  series : Option String
  since : Option String
  until_ : Option String
  averageValue : Option ℚ
  healthAdvice : Option String
  healthAdviceColor : Option String
  healthCode : Option ℚ
deriving DecidableEq

/-- The row built for one reading (lines 140-151). -/
def readingRow (sid pname punit tsName : Option String) (r : Reading) : Row :=
  { siteID := sid, parameter := pname, unit := punit, series := tsName,
    since := r.since, until_ := r.until_, averageValue := r.averageValue,
    healthAdvice := r.healthAdvice, healthAdviceColor := r.healthAdviceColor,
    healthCode := r.healthCode }

/-- Rows contributed by one payload: the triple-nested loop of lines 132-151. -/
def rowsOfPayload (item : ParamPayload) : List Row :=
  (pyOrList item.parameters).flatMap fun p =>
    (pyOrList p.timeSeriesReadings).flatMap fun ts =>
      (pyOrList ts.readings).map (readingRow item.siteID p.name p.unit ts.timeSeriesName)

/-- All rows, in construction order (lines 131-151). -/
def rowsOf (payloads : List ParamPayload) : List Row :=
  payloads.flatMap rowsOfPayload

/-- A row after `pd.to_datetime(..., utc=True, errors="coerce")` (lines
154-155): `since`/`until` hold UTC instants (epoch integers), `none` models
the `NaT` null marker produced for an absent or unparseable value. -/
structure PRow where
  siteID : Option String
  parameter : Option String
  unit : Option String
  series : Option String
  since : Option ℤ
  until_ : Option ℤ
  averageValue : Option ℚ
  healthAdvice : Option String
  healthAdviceColor : Option String
  healthCode : Option ℚ
deriving DecidableEq

/-- Timestamp conversion of one row, for a given parse function modelling
which strings `pd.to_datetime` can parse (unparseable ⇒ `none`, never an
error). -/
def parseRow (parse : String → Option ℤ) (r : Row) : PRow :=
  { siteID := r.siteID, parameter := r.parameter, unit := r.unit,
    series := r.series, since := r.since.bind parse,
    until_ := r.until_.bind parse, averageValue := r.averageValue,
    healthAdvice := r.healthAdvice, healthAdviceColor := r.healthAdviceColor,
    healthCode := r.healthCode }

/-- Map an optional value into `WithTop`, sending the missing/null marker to
`⊤`: pandas sorts null keys last (`na_position="last"`). -/
def optTop {α : Type} : Option α → WithTop α
  | none => ⊤
  | some x => (x : WithTop α)

/-- The sort key of line 156: `["siteID", "parameter", "series", "since"]`,
compared lexicographically with nulls last. -/
def rowKey (r : PRow) :
    (WithTop String) ×ₗ ((WithTop String) ×ₗ ((WithTop String) ×ₗ (WithTop ℤ))) :=
  toLex (optTop r.siteID,
    toLex (optTop r.parameter, toLex (optTop r.series, optTop r.since)))

/-- The row ordering used by `df.sort_values` on line 156. -/
def rowLE (a b : PRow) : Bool :=
  decide (rowKey a ≤ rowKey b)

/-- `parameters_to_df` (lines 130-157): build the rows; if the frame is
non-empty, convert `since`/`until` to UTC timestamps (unparseable → null)
and sort by `(siteID, parameter, series, since)`. -/
def parameters_to_df (parse : String → Option ℤ) (payloads : List ParamPayload) :
    List PRow :=
  let rows := rowsOf payloads
  if rows = [] then []
  else ((rows.map (parseRow parse)).mergeSort rowLE)

/-! ## main (lines 162-185) and the partition of payloads -/

/-- Python truthiness of `p.get("_error")` (line 172): the key must be
present and a non-empty string. -/
def errTruthy (p : ParamPayload) : Bool :=
  match p.err with
  | none => false
  | some s => !(s == "")

/-- `bad = [p for p in payloads if p.get("_error")]` (line 172). -/
def badOf (payloads : List ParamPayload) : List ParamPayload :=
  payloads.filter errTruthy

/-- The argument `main` actually passes to `parameters_to_df` on line 178:
the whole payload list. -/
def payloads_passed_to_df (payloads : List ParamPayload) : List ParamPayload :=
  payloads

/-- Following the spec's words (§4.4): the "usable payloads", i.e. the
results that are not Exhausted, which the spec says are what is handed to
the flattening transform. -/
def usable_payloads_spec (payloads : List ParamPayload) : List ParamPayload :=
  payloads.filter (fun p => !errTruthy p)

/-- One record of the `/sites` listing, as `main` uses it. -/
structure SiteRec where
  siteID : Option String
deriving DecidableEq

/-- `sites_df["siteID"].dropna().unique().tolist()` (line 166): drop the
null ids and keep the first occurrence of each id, in order. -/
def uniqueFirst : List String → List String
  | [] => []
  | x :: xs => x :: uniqueFirst (xs.filter (fun y => y ≠ x))
termination_by l => l.length
decreasing_by
  simp only [List.length_cons]
  exact Nat.lt_succ_of_le (List.length_filter_le _ _)

/-- `main` (lines 162-185), up to the data it hands downstream: the listing
fetch either raises (aborting the run before any per-entity fetch) or
yields records; the deduplicated id list drives `fetch_all_parameters`, and
all payloads are handed to `parameters_to_df`.  Returns the list of site
ids for which a per-entity fetch task was started, paired with the run's
outcome. -/
def main_run (listing : Except ℕ (List SiteRec))
    (resp : String → ℕ → HResponse) (parse : String → Option ℤ) :
    List String × Except ℕ (List PRow) :=
  match listing with
  | .error e => ([], .error e)
  | .ok records =>
    let ids := uniqueFirst (records.filterMap SiteRec.siteID)
    match fetch_all_parameters ids resp with
    | .error e => (ids, .error e)
    | .ok payloads => (ids, .ok (parameters_to_df parse (payloads_passed_to_df payloads)))

/-! ## site_list_script.py: fetch_sites (lines 12-22) -/

/-- Which auth header a request carries: `X-API-Key` (primary) or
`Ocp-Apim-Subscription-Key` (alt). -/
inductive AuthHeader : Type
  | primary : AuthHeader
  | alt : AuthHeader
deriving DecidableEq

/-- `fetch_sites` of `site_list_script.py` (lines 12-22): issues exactly one
GET with the primary `X-API-Key` header; on a 200 returns the decoded body,
on anything else falls off the function and returns `None`.  The trace of
requests issued (with the header each carries) is returned alongside. -/
def fetch_sites {α : Type} (status : ℕ) (body : α) : List AuthHeader × Option α :=
  ([AuthHeader.primary], if status = 200 then some body else none)

/-- Total number of readings in a payload list: one per
(payload, parameter, series, reading) tuple. -/
def readingCount (payloads : List ParamPayload) : ℕ :=
  (payloads.map fun item =>
    ((pyOrList item.parameters).map fun p =>
      ((pyOrList p.timeSeriesReadings).map fun ts =>
        (pyOrList ts.readings).length).sum).sum).sum

end EPA

namespace EPA

/-! ## Rate limiter lemmas (claim C3) -/

lemma mem_pruneWin_le {now : ℚ} : ∀ {l : List ℚ}, l.Pairwise (· ≤ ·) →
    ∀ e ∈ pruneWin now l, now - e ≤ 1
  | [], _, e, he => absurd he (List.not_mem_nil e)
  | h :: t, hs, e, he => by
    rw [List.pairwise_cons] at hs
    rw [pruneWin, List.dropWhile_cons] at he
    by_cases hp : now - h > 1
    · simp only [hp, decide_True, if_true] at he
      exact mem_pruneWin_le hs.2 e he
    · simp only [hp, decide_False, if_false] at he
      push_neg at hp
      rcases List.mem_cons.mp he with rfl | het
      · exact hp
      · have : h ≤ e := hs.1 e het
        linarith

lemma pruneWin_sublist (now : ℚ) (l : List ℚ) : List.Sublist (pruneWin now l) l :=
  List.dropWhile_sublist _

lemma pruneWin_sorted {now : ℚ} {l : List ℚ} (hs : l.Pairwise (· ≤ ·)) :
    (pruneWin now l).Pairwise (· ≤ ·) :=
  hs.sublist (pruneWin_sublist now l)

lemma length_pruneWin_le (now : ℚ) (l : List ℚ) :
    (pruneWin now l).length ≤ l.length :=
  (pruneWin_sublist now l).length_le

/-- One `acquire` call preserves the window invariant (given the strict
wake-up overshoot), and every retained entry is within one second of the
last prune performed inside the call. -/
lemma acquire_inv {K : ℕ} {ts : AcqTimes} {win : List ℚ} (hK : 0 < K)
    (hlen : win.length ≤ K) (hsort : win.Pairwise (· ≤ ·))
    (hok : stepOkStrict K ts win) :
    (acquire K ts win).length ≤ K ∧ (acquire K ts win).Pairwise (· ≤ ·) ∧
      ∀ e ∈ acquire K ts win, lastPrune K ts win - e ≤ 1 := by
  obtain ⟨hmem, h12, h23, hfull⟩ := hok
  have hw1s : (pruneWin ts.t1 win).Pairwise (· ≤ ·) := pruneWin_sorted hsort
  have hw1sub : ∀ e ∈ pruneWin ts.t1 win, e ∈ win :=
    fun e he => (pruneWin_sublist ts.t1 win).subset he
  by_cases hb : K ≤ (pruneWin ts.t1 win).length
  · -- window-full branch
    have hne : pruneWin ts.t1 win ≠ [] := by
      intro h0
      rw [h0] at hb
      simp at hb
      omega
    obtain ⟨hd, tl, hcons⟩ := List.exists_cons_of_ne_nil hne
    have hsleep : sleepFor ts.t1 win = 1 - (ts.t1 - hd) := by
      rw [sleepFor, hcons]
      rfl
    have hhd : ts.t2 - hd > 1 := by
      have := hfull hb
      rw [hsleep] at this
      linarith
    have hdrop : pruneWin ts.t2 (pruneWin ts.t1 win) = pruneWin ts.t2 tl := by
      rw [hcons, pruneWin, List.dropWhile_cons]
      simp only [hhd, decide_True, if_true]
      rfl
    have hlen1 : (pruneWin ts.t1 win).length ≤ K := le_trans (length_pruneWin_le _ _) hlen
    have hacq : acquire K ts win = pruneWin ts.t2 (pruneWin ts.t1 win) ++ [ts.t3] := by
      rw [acquire]
      simp only [hb, if_true]
    have hlp : lastPrune K ts win = ts.t2 := by
      rw [lastPrune, if_pos hb]
    refine ⟨?_, ?_, ?_⟩
    · rw [hacq, hdrop, List.length_append]
      have h1 : (pruneWin ts.t2 tl).length ≤ tl.length := length_pruneWin_le _ _
      have h2 : tl.length + 1 = (pruneWin ts.t1 win).length := by
        rw [hcons]; simp
      simp only [List.length_cons, List.length_nil]
      omega
    · rw [hacq]
      rw [List.pairwise_append]
      refine ⟨pruneWin_sorted hw1s, List.pairwise_singleton _ _, ?_⟩
      intro a ha b hb'
      rw [List.mem_singleton] at hb'
      subst hb'
      have : a ∈ win := hw1sub a ((pruneWin_sublist ts.t2 _).subset ha)
      have := hmem a this
      linarith
    · intro e he
      rw [hacq, List.mem_append] at he
      rw [hlp]
      rcases he with he | he
      · exact mem_pruneWin_le hw1s e he
      · rw [List.mem_singleton] at he
        subst he
        linarith
  · -- window-not-full branch
    have hacq : acquire K ts win = pruneWin ts.t1 win ++ [ts.t3] := by
      rw [acquire]
      simp only [hb, if_false]
    have hlp : lastPrune K ts win = ts.t1 := by
      rw [lastPrune, if_neg hb]
    push_neg at hb
    refine ⟨?_, ?_, ?_⟩
    · rw [hacq, List.length_append]
      simp only [List.length_cons, List.length_nil]
      omega
    · rw [hacq, List.pairwise_append]
      refine ⟨hw1s, List.pairwise_singleton _ _, ?_⟩
      intro a ha b hb'
      rw [List.mem_singleton] at hb'
      subst hb'
      have := hmem a (hw1sub a ha)
      linarith
    · intro e he
      rw [hacq, List.mem_append] at he
      rw [hlp]
      rcases he with he | he
      · exact mem_pruneWin_le hsort e he
      · rw [List.mem_singleton] at he
        subst he
        linarith

lemma acquireSeq_inv {K : ℕ} (hK : 0 < K) : ∀ (steps : List AcqTimes) (win : List ℚ),
    win.length ≤ K → win.Pairwise (· ≤ ·) → strictRun K steps win →
    (acquireSeq K steps win).length ≤ K ∧ (acquireSeq K steps win).Pairwise (· ≤ ·)
  | [], win, hlen, hsort, _ => ⟨hlen, hsort⟩
  | ts :: rest, win, hlen, hsort, hrun => by
    obtain ⟨hok, hrun'⟩ := hrun
    obtain ⟨h1, h2, _⟩ := acquire_inv hK hlen hsort hok
    exact acquireSeq_inv hK rest (acquire K ts win) h1 h2 hrun'

lemma acquireSeq_append (K : ℕ) : ∀ (s1 s2 : List AcqTimes) (win : List ℚ),
    acquireSeq K (s1 ++ s2) win = acquireSeq K s2 (acquireSeq K s1 win)
  | [], s2, win => rfl
  | ts :: rest, s2, win => by
    rw [List.cons_append, acquireSeq, acquireSeq, acquireSeq_append K rest s2]

lemma strictRun_append (K : ℕ) : ∀ (s1 s2 : List AcqTimes) (win : List ℚ),
    strictRun K (s1 ++ s2) win ↔
      strictRun K s1 win ∧ strictRun K s2 (acquireSeq K s1 win)
  | [], s2, win => by simp [strictRun, acquireSeq]
  | ts :: rest, s2, win => by
    rw [List.cons_append, strictRun, strictRun, strictRun_append K rest s2,
      acquireSeq, and_assoc]

/-- C3 (counterexample): with `max_per_sec = 1`, a second `acquire` whose
wake-up clock reading is exactly `oldestEntry + 1` (all clock readings
consistent with the code: the first call observes time 0, the second enters
at 0, sleeps `sleep_for = 1`, and wakes observing exactly 1) leaves TWO
timestamps in the window — the strict `>` in the prune loop keeps the
boundary entry, so the claimed invariant `length ≤ K` fails in exactly the
edge case the claim includes. -/
theorem rate_limiter_window_exceeds_K :
    validRun 1 [⟨0, 0, 0⟩, ⟨0, 1, 1⟩] [] ∧
      ¬ ((acquireSeq 1 [⟨0, 0, 0⟩, ⟨0, 1, 1⟩] []).length ≤ 1) := by
  constructor
  · norm_num [validRun, stepOk, acquire, pruneWin, sleepFor, List.dropWhile]
  · norm_num [acquireSeq, acquire, pruneWin, List.dropWhile]

/-- C3 (amended): for every sequence of `acquire` calls on a limiter with
`max_per_sec = K ≥ 1`, started from the empty window, if every window-full
step wakes strictly later than `t1 + sleep_for` (equivalently, strictly
later than `oldestEntry + 1`; real clocks deliver this, only the exact
boundary wake-up is excluded), then after any `acquire` call returns the
window holds at most `K` timestamps and every retained entry is within the
trailing 1-second interval relative to the time of that call's last prune. -/
theorem rate_limiter_invariant (K : ℕ) (steps : List AcqTimes) (ts : AcqTimes)
    (hK : 0 < K) (hrun : strictRun K (steps ++ [ts]) []) :
    (acquireSeq K (steps ++ [ts]) []).length ≤ K ∧
      ∀ e ∈ acquireSeq K (steps ++ [ts]) [],
        lastPrune K ts (acquireSeq K steps []) - e ≤ 1 := by
  rw [strictRun_append] at hrun
  obtain ⟨hrun1, hrun2⟩ := hrun
  obtain ⟨hok, -⟩ := hrun2
  have hinv := acquireSeq_inv hK steps [] (by simp) List.Pairwise.nil hrun1
  have hstep := acquire_inv hK hinv.1 hinv.2 hok
  rw [acquireSeq_append]
  have : acquireSeq K [ts] (acquireSeq K steps []) =
      acquire K ts (acquireSeq K steps []) := rfl
  rw [this]
  exact ⟨hstep.1, hstep.2.2⟩

/-- C3 (witness for the amended theorem): a concrete two-call run with
`K = 1` — the second call enters at time 2, finds the entry from time 0
stale, prunes it, and the window ends with the single entry 3, within one
second of the last prune at time 2. -/
theorem rate_limiter_invariant_witness :
    (acquireSeq 1 [⟨0, 0, 0⟩, ⟨2, 3, 3⟩] []).length ≤ 1 ∧
      ∀ e ∈ acquireSeq 1 [⟨0, 0, 0⟩, ⟨2, 3, 3⟩] [],
        lastPrune 1 ⟨2, 3, 3⟩ (acquireSeq 1 [⟨0, 0, 0⟩] []) - e ≤ 1 := by
  have h := rate_limiter_invariant 1 [⟨0, 0, 0⟩] ⟨2, 3, 3⟩ (by norm_num)
    (by norm_num [strictRun, stepOkStrict, acquire, acquireSeq, pruneWin, sleepFor,
      List.dropWhile])
  exact h

/-! ## Fetch-loop lemmas (claims C1, C2, C4, C5) -/

/-- A status is handled by the loop without raising: 429, 404, or a 2xx. -/
def handledStatus (s : ℕ) : Prop :=
  s = 429 ∨ s = 404 ∨ (200 ≤ s ∧ s ≤ 299)

lemma fetchAttempts_ok (sid : String) (resp : ℕ → HResponse) :
    ∀ (fuel attempt : ℕ),
    (∀ i, attempt ≤ i → i < attempt + fuel → handledStatus (resp i).status) →
    ∃ p, (fetchAttempts sid resp attempt fuel).2 = .ok p
  | 0, attempt, _ => ⟨_, rfl⟩
  | fuel + 1, attempt, h => by
    rcases h attempt (Nat.le_refl _) (by omega) with h429 | h404 | h2xx
    · obtain ⟨p, hp⟩ := fetchAttempts_ok sid resp fuel (attempt + 1)
        (fun i h1 h2 => h i (by omega) (by omega))
      refine ⟨p, ?_⟩
      rw [fetchAttempts]
      simp only [h429, if_true, hp]
    · refine ⟨⟨some sid, some [], none⟩, ?_⟩
      rw [fetchAttempts]
      simp only [h404]
      norm_num
    · refine ⟨{ (resp attempt).body with siteID := some sid }, ?_⟩
      rw [fetchAttempts]
      have hne : ¬ (resp attempt).status = 429 := by omega
      have hne' : ¬ (resp attempt).status = 404 := by omega
      simp only [hne, hne', h2xx, if_false, if_true, and_self]

/-- C1 (counterexample): a transport whose first response is HTTP 500 — a
non-2xx status other than 404 and 429 — makes `fetch_site_parameters`
raise `HTTPStatusError` out of `raise_for_status` (modelled by
`Except.error 500`) instead of capturing the failure in a `FetchResult`. -/
theorem fetch_raises_on_500 :
    (fetch_site_parameters "S1"
      (fun _ => ⟨500, none, ⟨none, none, none⟩⟩)).2 = .error 500 ∧
    ∀ p, (fetch_site_parameters "S1"
      (fun _ => ⟨500, none, ⟨none, none, none⟩⟩)).2 ≠ .ok p := by
  constructor
  · rfl
  · intro p h
    simp [fetch_site_parameters, fetchAttempts] at h

/-- C1 (amended): `fetch_site_parameters` returns a `FetchResult` without
raising — every failure mode captured in the NotFound/Exhausted-shaped
payloads — provided every response status is 429, 404 or 2xx; any other
non-2xx status instead escapes to the caller as a raised
`HTTPStatusError`. -/
theorem fetch_total_on_handled_statuses (sid : String) (resp : ℕ → HResponse)
    (h : ∀ i, i < 4 → handledStatus (resp i).status) :
    ∃ p, (fetch_site_parameters sid resp).2 = .ok p := by
  exact fetchAttempts_ok sid resp 4 0 (fun i h1 h2 => h i (by omega))

/-- C1 (witness for the amended theorem): a transport answering 404
immediately satisfies the handled-status hypothesis, and the fetch returns
a `FetchResult`. -/
theorem fetch_total_on_handled_statuses_witness :
    ∃ p, (fetch_site_parameters "W1"
      (fun _ => ⟨404, none, ⟨none, none, none⟩⟩)).2 = .ok p := by
  exact fetch_total_on_handled_statuses "W1" _
    (fun i _ => Or.inr (Or.inl rfl))

/-- C2 (counterexample): the 404 "NotFound" result is NOT represented
distinctly from an ordinary Success: a transport answering 404 and a
transport answering 200 with the payload `{"parameters": []}` make
`fetch_site_parameters` return exactly the same dictionary
`{"siteID": sid, "parameters": []}`. -/
theorem notfound_result_equals_empty_success :
    (fetch_site_parameters "S1" (fun _ => ⟨404, none, ⟨none, none, none⟩⟩)).2 =
      (fetch_site_parameters "S1" (fun _ => ⟨200, none, ⟨none, some [], none⟩⟩)).2 := by
  rfl

/-- C2 (amended): on a transport whose first response is 404,
`fetch_site_parameters` returns on the first attempt — the trace is one
limiter acquisition and one GET, no backoff sleep, exactly one attempt —
with the result `{"siteID": sid, "parameters": []}`; this result is
distinct from the Exhausted result (no `_error` key), but (per the
counterexample) not from a Success with an empty `parameters` payload. -/
theorem fetch_notfound_first_attempt (sid : String) (resp : ℕ → HResponse)
    (h404 : (resp 0).status = 404) :
    fetch_site_parameters sid resp =
      ([.acquire, .get 0], .ok ⟨some sid, some [], none⟩) ∧
    hasSleep (fetch_site_parameters sid resp).1 = false ∧
    countGets (fetch_site_parameters sid resp).1 = 1 ∧
    (Except.ok (⟨some sid, some [], none⟩ : ParamPayload) : Except ℕ ParamPayload) ≠
      .ok ⟨some sid, some [], some "exhausted retries"⟩ := by
  have h : fetch_site_parameters sid resp =
      ([.acquire, .get 0], .ok ⟨some sid, some [], none⟩) := by
    rw [fetch_site_parameters, fetchAttempts]
    simp only [h404]
    norm_num
  refine ⟨h, ?_, ?_, ?_⟩
  · rw [h]; rfl
  · rw [h]; rfl
  · intro hcon
    simp at hcon

/-- C2 (witness): on the concrete 404 transport, the fetch returns the
NotFound payload on the first attempt with no sleep. -/
theorem fetch_notfound_first_attempt_witness :
    fetch_site_parameters "W2" (fun _ => ⟨404, none, ⟨none, none, none⟩⟩) =
      ([.acquire, .get 0], .ok ⟨some "W2", some [], none⟩) ∧
    hasSleep (fetch_site_parameters "W2"
      (fun _ => ⟨404, none, ⟨none, none, none⟩⟩)).1 = false ∧
    countGets (fetch_site_parameters "W2"
      (fun _ => ⟨404, none, ⟨none, none, none⟩⟩)).1 = 1 ∧
    (Except.ok (⟨some "W2", some [], none⟩ : ParamPayload) : Except ℕ ParamPayload) ≠
      .ok ⟨some "W2", some [], some "exhausted retries"⟩ :=
  fetch_notfound_first_attempt "W2" _ rfl

/-- C4: a transport answering 429 exactly `a` times then 200, with `a < 4`,
makes `fetch_site_parameters` return Success (the 200 body with `siteID`
attached) after exactly `a + 1` attempts; a transport answering 429 on all
four attempts makes it return the Exhausted payload, carrying the
descriptive `"_error": "exhausted retries"` marker, rather than raising. -/
theorem fetch_retry_budget (sid : String) (resp : ℕ → HResponse) :
    (∀ a, a < 4 → (∀ i, i < a → (resp i).status = 429) → (resp a).status = 200 →
      (fetch_site_parameters sid resp).2 =
        .ok { (resp a).body with siteID := some sid } ∧
      countGets (fetch_site_parameters sid resp).1 = a + 1) ∧
    ((∀ i, i < 4 → (resp i).status = 429) →
      (fetch_site_parameters sid resp).2 =
        .ok ⟨some sid, some [], some "exhausted retries"⟩) := by
  constructor
  · intro a ha h429 h200
    interval_cases a
    · constructor <;>
        simp [fetch_site_parameters, fetchAttempts, countGets, h200]
    · have h0 := h429 0 (by omega)
      constructor <;>
        simp [fetch_site_parameters, fetchAttempts, countGets, h0, h200]
    · have h0 := h429 0 (by omega)
      have h1 := h429 1 (by omega)
      constructor <;>
        simp [fetch_site_parameters, fetchAttempts, countGets, h0, h1, h200]
    · have h0 := h429 0 (by omega)
      have h1 := h429 1 (by omega)
      have h2 := h429 2 (by omega)
      constructor <;>
        simp [fetch_site_parameters, fetchAttempts, countGets, h0, h1, h2, h200]
  · intro h429
    have h0 := h429 0 (by omega)
    have h1 := h429 1 (by omega)
    have h2 := h429 2 (by omega)
    have h3 := h429 3 (by omega)
    simp [fetch_site_parameters, fetchAttempts, h0, h1, h2, h3]

/-- C4 (witness): 429 twice then 200 gives Success on the third attempt;
429 on all four attempts gives the Exhausted payload. -/
theorem fetch_retry_budget_witness :
    ((fetch_site_parameters "W4"
      (fun i => if i < 2 then ⟨429, none, ⟨none, none, none⟩⟩
                else ⟨200, none, ⟨none, none, none⟩⟩)).2 =
        .ok ⟨some "W4", none, none⟩ ∧
     countGets (fetch_site_parameters "W4"
      (fun i => if i < 2 then ⟨429, none, ⟨none, none, none⟩⟩
                else ⟨200, none, ⟨none, none, none⟩⟩)).1 = 2 + 1) ∧
    (fetch_site_parameters "W4x" (fun _ => ⟨429, none, ⟨none, none, none⟩⟩)).2 =
      .ok ⟨some "W4x", some [], some "exhausted retries"⟩ :=
  ⟨(fetch_retry_budget "W4" _).1 2 (by omega)
      (by intro i hi; interval_cases i <;> rfl) rfl,
    (fetch_retry_budget "W4x" _).2 (fun i _ => rfl)⟩

/-- C5: while the responses up to attempt `a < 4` are all 429, the backoff
delay slept right after the GET of attempt `a` is `backoffDelay` of that
response's `Retry-After` header: the header value when present and
parseable as a number of seconds, and otherwise `min(2 ** a, 8)`, which for
attempts 0, 1, 2, 3 is exactly 1, 2, 4, 8 seconds. -/
theorem backoff_delay_schedule (sid : String) (resp : ℕ → HResponse) (a : ℕ)
    (ha : a < 4) (h429 : ∀ i, i ≤ a → (resp i).status = 429) :
    (fetch_site_parameters sid resp).1.get? (3 * a + 2) =
      some (.sleep (backoffDelay a (resp a).retryAfter)) ∧
    (∀ q, backoffDelay a (some (some q)) = q) ∧
    backoffDelay a (some none) = min ((2 : ℚ) ^ a) 8 ∧
    backoffDelay a none = min ((2 : ℚ) ^ a) 8 ∧
    [(1 : ℚ), 2, 4, 8].get? a = some (min ((2 : ℚ) ^ a) 8) := by
  refine ⟨?_, fun q => rfl, rfl, rfl, ?_⟩
  · interval_cases a
    · have h0 := h429 0 (by omega)
      simp [fetch_site_parameters, fetchAttempts, h0]
    · have h0 := h429 0 (by omega)
      have h1 := h429 1 (by omega)
      simp [fetch_site_parameters, fetchAttempts, h0, h1]
    · have h0 := h429 0 (by omega)
      have h1 := h429 1 (by omega)
      have h2 := h429 2 (by omega)
      simp [fetch_site_parameters, fetchAttempts, h0, h1, h2]
    · have h0 := h429 0 (by omega)
      have h1 := h429 1 (by omega)
      have h2 := h429 2 (by omega)
      have h3 := h429 3 (by omega)
      simp [fetch_site_parameters, fetchAttempts, h0, h1, h2, h3]
  · interval_cases a <;> norm_num [backoffDelay]

/-- C5 (witness): at attempt 1 of an all-429 transport without a
`Retry-After` header, the slept delay is `backoffDelay 1 none = 2`. -/
theorem backoff_delay_schedule_witness :
    (fetch_site_parameters "W5" (fun _ => ⟨429, none, ⟨none, none, none⟩⟩)).1.get?
        (3 * 1 + 2) = some (.sleep (backoffDelay 1 none)) ∧
    (∀ q, backoffDelay 1 (some (some q)) = q) ∧
    backoffDelay 1 (some none) = min ((2 : ℚ) ^ 1) 8 ∧
    backoffDelay 1 none = min ((2 : ℚ) ^ 1) 8 ∧
    [(1 : ℚ), 2, 4, 8].get? 1 = some (min ((2 : ℚ) ^ 1) 8) :=
  backoff_delay_schedule "W5" _ 1 (by omega) (fun i _ => rfl)

/-- C6: when no worker raises, `fetch_all_parameters` returns a collection
with exactly one `FetchResult` per input id — same length as the input, and
the `i`-th result is the fetch outcome of the `i`-th id, so no id is
dropped and none is duplicated. -/
theorem worker_pool_one_result_per_id (ids : List String)
    (resp : String → ℕ → HResponse)
    (h : ∀ sid ∈ ids, ∃ p, (fetch_site_parameters sid (resp sid)).2 = .ok p) :
    ∃ results, fetch_all_parameters ids resp = .ok results ∧
      results.length = ids.length ∧
      ∀ i : ℕ, results.get? i =
        (ids.get? i).bind fun sid => ((fetch_site_parameters sid (resp sid)).2).toOption := by
  induction ids with
  | nil =>
    refine ⟨[], rfl, rfl, fun i => ?_⟩
    simp
  | cons sid rest ih =>
    obtain ⟨p, hp⟩ := h sid (List.mem_cons_self sid rest)
    obtain ⟨rs, h1, h2, h3⟩ := ih (fun s hs => h s (List.mem_cons_of_mem _ hs))
    refine ⟨p :: rs, ?_, ?_, ?_⟩
    · rw [fetch_all_parameters, hp, h1]
    · simp [h2]
    · intro i
      cases i with
      | zero => simp [hp, Except.toOption]
      | succ n => simpa using h3 n

/-- C6 (witness): two ids against an all-200 transport — two results, in
input order, one per id. -/
theorem worker_pool_one_result_per_id_witness :
    ∃ results, fetch_all_parameters ["A", "B"]
        (fun _ _ => ⟨200, none, ⟨none, none, none⟩⟩) = .ok results ∧
      results.length = (["A", "B"] : List String).length ∧
      ∀ i : ℕ, results.get? i =
        ((["A", "B"] : List String).get? i).bind fun sid =>
          ((fetch_site_parameters sid
            ((fun _ _ => ⟨200, none, ⟨none, none, none⟩⟩) sid)).2).toOption :=
  worker_pool_one_result_per_id ["A", "B"] _ (fun _ _ => ⟨_, rfl⟩)

/-- C7 (counterexample): `main` does not hand only the usable payloads to
`parameters_to_df` — line 178 passes the whole payload list, so an
Exhausted payload (truthy `_error`) is included in the flattening input,
contrary to the spec's partition. -/
theorem df_input_is_not_usable_only :
    payloads_passed_to_df [⟨some "C", some [], some "exhausted retries"⟩] ≠
      usable_payloads_spec [⟨some "C", some [], some "exhausted retries"⟩] ∧
    errTruthy ⟨some "C", some [], some "exhausted retries"⟩ = true := by
  constructor
  · simp [payloads_passed_to_df, usable_payloads_spec, errTruthy]
  · rfl

lemma rowsOfPayload_of_empty {p : ParamPayload}
    (h : pyOrList p.parameters = []) : rowsOfPayload p = [] := by
  simp [rowsOfPayload, h]

lemma rowsOf_filter_errTruthy (payloads : List ParamPayload)
    (h : ∀ p ∈ payloads, errTruthy p = true → pyOrList p.parameters = []) :
    rowsOf payloads = rowsOf (payloads.filter (fun p => !errTruthy p)) := by
  induction payloads with
  | nil => rfl
  | cons p rest ih =>
    have hrest := ih (fun q hq => h q (List.mem_cons_of_mem _ hq))
    by_cases hp : errTruthy p = true
    · have hpe := rowsOfPayload_of_empty (h p (List.mem_cons_self _ _) hp)
      simp [rowsOf, List.filter_cons, hp, hpe] at hrest ⊢
      simpa [rowsOf] using hrest
    · rw [Bool.not_eq_true] at hp
      simp [rowsOf, List.filter_cons, hp] at hrest ⊢
      simpa [rowsOf] using hrest

/-- C7 (amended): `main` computes the Exhausted subset (`bad`) only for
reporting and hands the WHOLE payload list to `parameters_to_df`; since
every Exhausted payload produced by the fetch carries an empty `parameters`
list, the flattened table nevertheless equals the one produced from the
usable payloads alone. -/
theorem df_unchanged_by_dropping_exhausted (parse : String → Option ℤ)
    (payloads : List ParamPayload)
    (h : ∀ p ∈ payloads, errTruthy p = true → pyOrList p.parameters = []) :
    parameters_to_df parse (payloads_passed_to_df payloads) =
      parameters_to_df parse (usable_payloads_spec payloads) := by
  have hrows := rowsOf_filter_errTruthy payloads h
  rw [payloads_passed_to_df, usable_payloads_spec, parameters_to_df,
    parameters_to_df, hrows]

/-- C7 (witness for the amended theorem): one Success payload with a single
reading plus one Exhausted payload — the flattened output with and without
the Exhausted payload coincide. -/
theorem df_unchanged_by_dropping_exhausted_witness :
    parameters_to_df (fun _ => none) (payloads_passed_to_df
      [⟨some "A", some [⟨some "p", none, some [⟨some "1HR",
        some [⟨none, none, none, none, none, none⟩]⟩]⟩], none⟩,
       ⟨some "C", some [], some "exhausted retries"⟩]) =
    parameters_to_df (fun _ => none) (usable_payloads_spec
      [⟨some "A", some [⟨some "p", none, some [⟨some "1HR",
        some [⟨none, none, none, none, none, none⟩]⟩]⟩], none⟩,
       ⟨some "C", some [], some "exhausted retries"⟩]) := by
  apply df_unchanged_by_dropping_exhausted
  intro p hp he
  fin_cases hp
  · exact absurd he (by norm_num [errTruthy])
  · rfl

/-- C8: if the listing fetch raises, the whole run aborts with that error
before fan-out: the list of site ids for which a per-entity fetch task was
started is empty. -/
theorem listing_failure_aborts_before_fanout (e : ℕ)
    (resp : String → ℕ → HResponse) (parse : String → Option ℤ) :
    main_run (.error e) resp parse = ([], .error e) :=
  rfl

/-! ## Flattening transform lemmas (claim C9) -/

lemma rowsOf_length (payloads : List ParamPayload) :
    (rowsOf payloads).length = readingCount payloads := by
  simp [rowsOf, rowsOfPayload, readingCount, List.flatMap, Function.comp_def]

lemma rowLE_trans : ∀ a b c : PRow, rowLE a b → rowLE b c → rowLE a c := by
  intro a b c hab hbc
  rw [rowLE, decide_eq_true_eq] at hab hbc ⊢
  exact le_trans hab hbc

lemma rowLE_total : ∀ a b : PRow, rowLE a b || rowLE b a := by
  intro a b
  rw [rowLE, rowLE]
  rcases le_total (rowKey a) (rowKey b) with h | h
  · simp [h]
  · simp [h]

/-- C9: `parameters_to_df` emits one output row per
(siteID, parameter, series, reading) tuple (the output length is the total
reading count); the output is sorted by `(siteID, parameter, series, since)`
under the null-last row ordering of `sort_values`; every built row survives
into the output with its `since`/`until` parsed — an unparseable or missing
value becomes the null marker `none` in that row instead of an error; and
payloads with an empty or missing `parameters` list produce zero rows. -/
theorem parameters_to_df_shape (parse : String → Option ℤ)
    (payloads : List ParamPayload) :
    (parameters_to_df parse payloads).length = readingCount payloads ∧
    (parameters_to_df parse payloads).Pairwise (fun a b => rowLE a b = true) ∧
    (∀ r ∈ rowsOf payloads,
      parseRow parse r ∈ parameters_to_df parse payloads ∧
      (parseRow parse r).since = r.since.bind parse ∧
      (parseRow parse r).until_ = r.until_.bind parse) ∧
    ((∀ p ∈ payloads, pyOrList p.parameters = []) →
      parameters_to_df parse payloads = []) := by
  refine ⟨?_, ?_, ?_, ?_⟩
  · by_cases h : rowsOf payloads = []
    · rw [parameters_to_df, if_pos h]
      have := rowsOf_length payloads
      rw [h] at this
      simpa using this
    · rw [parameters_to_df, if_neg h, List.length_mergeSort, List.length_map,
        rowsOf_length]
  · by_cases h : rowsOf payloads = []
    · rw [parameters_to_df, if_pos h]
      exact List.Pairwise.nil
    · rw [parameters_to_df, if_neg h]
      exact List.sorted_mergeSort rowLE_trans rowLE_total _
  · intro r hr
    have hne : rowsOf payloads ≠ [] := List.ne_nil_of_mem hr
    refine ⟨?_, rfl, rfl⟩
    rw [parameters_to_df, if_neg hne, List.mem_mergeSort]
    exact List.mem_map_of_mem _ hr
  · intro hall
    have h : rowsOf payloads = [] := by
      rw [rowsOf, List.flatMap_eq_nil_iff]
      exact fun p hp => rowsOfPayload_of_empty (hall p hp)
    rw [parameters_to_df, if_pos h]

/-- C9 (witness): one payload with two parameters of one reading each — one
reading's `since` parseable, the other not — flattens to 2 rows, sorted,
with the unparseable `since` turned into the null marker; and a payload
with an empty `parameters` list yields zero rows. -/
theorem parameters_to_df_shape_witness :
    (parameters_to_df (fun s => if s = "good" then some 0 else none)
      [⟨some "A", some [
        ⟨some "p1", none, some [⟨some "1HR", some [⟨some "good", none, none, none, none, none⟩]⟩]⟩,
        ⟨some "p2", none, some [⟨some "1HR", some [⟨some "bad", none, none, none, none, none⟩]⟩]⟩],
        none⟩]).length = 2 ∧
    (parameters_to_df (fun s => if s = "good" then some 0 else none)
      [⟨some "A", some [
        ⟨some "p1", none, some [⟨some "1HR", some [⟨some "good", none, none, none, none, none⟩]⟩]⟩,
        ⟨some "p2", none, some [⟨some "1HR", some [⟨some "bad", none, none, none, none, none⟩]⟩]⟩],
        none⟩]).Pairwise (fun a b => rowLE a b = true) ∧
    (parseRow (fun s => if s = "good" then some 0 else none)
        (readingRow (some "A") (some "p2") none (some "1HR")
          ⟨some "bad", none, none, none, none, none⟩) ∈
      parameters_to_df (fun s => if s = "good" then some 0 else none)
        [⟨some "A", some [
          ⟨some "p1", none, some [⟨some "1HR", some [⟨some "good", none, none, none, none, none⟩]⟩]⟩,
          ⟨some "p2", none, some [⟨some "1HR", some [⟨some "bad", none, none, none, none, none⟩]⟩]⟩],
          none⟩] ∧
      (parseRow (fun s => if s = "good" then some 0 else none)
        (readingRow (some "A") (some "p2") none (some "1HR")
          ⟨some "bad", none, none, none, none, none⟩)).since = none) ∧
    parameters_to_df (fun s => if s = "good" then some 0 else none)
      [⟨some "B", some [], none⟩] = [] := by
  have h1 := (parameters_to_df_shape (fun s => if s = "good" then some 0 else none)
    [⟨some "A", some [
      ⟨some "p1", none, some [⟨some "1HR", some [⟨some "good", none, none, none, none, none⟩]⟩]⟩,
      ⟨some "p2", none, some [⟨some "1HR", some [⟨some "bad", none, none, none, none, none⟩]⟩]⟩],
      none⟩])
  have h2 := (parameters_to_df_shape (fun s => if s = "good" then some 0 else none)
    [⟨some "B", some [], none⟩]).2.2.2 (by intro p hp; fin_cases hp; rfl)
  have hmem := h1.2.2.1
    (readingRow (some "A") (some "p2") none (some "1HR")
      ⟨some "bad", none, none, none, none, none⟩)
    (by simp [rowsOf, rowsOfPayload, pyOrList])
  refine ⟨?_, h1.2.1, ⟨hmem.1, ?_⟩, h2⟩
  · rw [h1.1]
    rfl
  · rw [hmem.2.1]
    rfl

/-- C10: in the site-listing script, any response whose status is not 200
makes `fetch_sites` return `None` to its caller — no exception, no retry
(exactly one request is issued), and the request carries the primary
`X-API-Key` header; the alternate `Ocp-Apim-Subscription-Key` header the
function constructs is never sent. -/
theorem fetch_sites_non200_returns_none (α : Type) (status : ℕ) (body : α)
    (h : status ≠ 200) :
    fetch_sites status body = ([AuthHeader.primary], none) ∧
    AuthHeader.alt ∉ (fetch_sites status body).1 ∧
    (fetch_sites status body).1.length = 1 := by
  refine ⟨?_, ?_, rfl⟩
  · rw [fetch_sites, if_neg h]
  · rw [fetch_sites]
    simp

/-- C10 (witness): a 500 listing response yields `None`, one request, no
alternate header. -/
theorem fetch_sites_non200_returns_none_witness :
    fetch_sites 500 (0 : ℕ) = ([AuthHeader.primary], none) ∧
    AuthHeader.alt ∉ (fetch_sites 500 (0 : ℕ)).1 ∧
    (fetch_sites 500 (0 : ℕ)).1.length = 1 :=
  fetch_sites_non200_returns_none ℕ 500 0 (by omega)

end EPA
